import Mathlib

/-!
Shallow embedding of the `mcp-dataretrieval` repository: the tabular data
model, the result sanitizer, the per-operation adapters, the name-based
dispatcher, the function catalog, and the conversational driver's
function-call extraction loop.  External collaborators (the `dataretrieval`
NWIS client, Python's `re` and `json` standard-library modules) are modelled
as oracles / parameters; everything written in the repository itself is
translated directly from the source.
-/

namespace DataRetrieval

/-- A cell of a tabular result; `none` models a missing value (pandas NaN). -/
abbrev Cell := Option String

/-- Tabular result returned by the external data service: ordered column
names and rows in source order (`df.columns`, `df.values.tolist()`). -/
structure Table where
  cols : List String
  rows : List (List Cell)
  deriving DecidableEq, Repr

/-- A loosely-typed Python parameter value as it appears in a parameter
mapping: `None`, a string, or a list of strings. -/
inductive Val where
  | vnone : Val
  | vstr : String → Val
  | vlist : List String → Val
  deriving DecidableEq, Repr

/-- Python truthiness for the values above: `None`, `""` and `[]` are falsy. -/
def Val.truthy : Val → Bool
  | .vnone => false
  | .vstr s => !s.isEmpty
  | .vlist l => !l.isEmpty

/-- Rendering used in interpolated messages (`f"... {site_code}"`). -/
def Val.pyStr : Val → String
  | .vnone => "None"
  | .vstr s => s
  | .vlist l => "[" ++ String.intercalate ", " l ++ "]"

/-- A parameter mapping (`params: Dict[str, Any]`); a key absent from the
dictionary maps to `Val.vnone`, matching `params.get(key)` returning `None`. -/
def Params := String → Val

/-- Python `s.split(sep)` for a one-character separator: splitting any
string, including `""`, yields a non-empty list (`"".split(",") == [""]`). -/
def pySplit (s : String) (sep : Char) : List String :=
  (s.data.splitOn sep).map String.mk

/-- The cells of column `j` of a table, read off its rows. -/
def Table.col (t : Table) (j : Nat) : List Cell :=
  t.rows.map (fun r => r.getD j none)

/-- pandas `cell != '-'`: a missing value (NaN) compares unequal to the
sentinel string, so it satisfies this predicate. -/
def cellNeSentinel (c : Cell) : Bool :=
  match c with
  | none => true
  | some v => v != "-"

/-- Column keep-predicate of `df.dropna(axis=1, how='all')`: some cell is
present. Vacuously false on a zero-row table. -/
def colNonNa (cells : List Cell) : Bool := cells.any (fun c => c.isSome)

/-- Column keep-predicate of `df.loc[:, (df != '-').any(axis=0)]`: some cell
compares unequal to the sentinel. Vacuously false on a zero-row table. -/
def colNonSent (cells : List Cell) : Bool := cells.any cellNeSentinel

/-- Restrict a table to the columns at the given indices, preserving the
rows' order and count. -/
def Table.restrict (t : Table) (idxs : List Nat) : Table :=
  { cols := idxs.map (fun j => t.cols.getD j "")
    rows := t.rows.map (fun r => idxs.map (fun j => r.getD j none)) }

/-- `df.dropna(axis=1, how='all', inplace=True)`. -/
def dropAllNaColumns (t : Table) : Table :=
  t.restrict ((List.range t.cols.length).filter (fun j => colNonNa (t.col j)))

/-- `df = df.loc[:, (df != '-').any(axis=0)]`. -/
def dropAllSentinelColumns (t : Table) : Table :=
  t.restrict ((List.range t.cols.length).filter (fun j => colNonSent (t.col j)))

/-- The two-step column cleanup repeated by every operation: drop all-missing
columns, then drop columns whose every cell equals the sentinel. -/
def sanitize (t : Table) : Table :=
  dropAllSentinelColumns (dropAllNaColumns t)

/-- pandas `df.empty`: true when the table has no rows or no columns. -/
def Table.isEmpty (t : Table) : Bool := t.rows.isEmpty || t.cols.isEmpty

/-- `df.drop(names, axis=1, errors='ignore', inplace=True)`. -/
def Table.dropNamed (t : Table) (names : List String) : Table :=
  t.restrict ((List.range t.cols.length).filter
    (fun j => !(names.contains (t.cols.getD j ""))))

/-- The uniform result envelope built by `_format_response`: a key is
present in the dictionary exactly when the corresponding argument is not
`None`, which the `Option` fields model. -/
structure Envelope where
  status : String
  data : Option (List (List Cell))
  column_names : Option (List String)
  message : Option String
  deriving DecidableEq, Repr

/-- `_format_response("error", message=msg)`. -/
def errorResponse (msg : String) : Envelope :=
  { status := "error", data := none, column_names := none, message := some msg }

/-- `_format_response("success", column_names=cols, data=rows, message=msg)`. -/
def successResponse (cols : List String) (rows : List (List Cell)) (msg : String) : Envelope :=
  { status := "success", data := some rows, column_names := some cols, message := some msg }

/-- A record of one invocation of the external data service, with the exact
arguments the operation forwarded.  Each operation's result carries the list
of such invocations it performed (empty when validation short-circuits). -/
inductive SvcCall where
  | recordSite (sites : Val)
  | dv (sites parameterCd statCd startDate endDate : Val)
  | iv (sites parameterCd startDate endDate : Val)
  | dischargeMeasurements (sites startDate endDate : Val)
  | dischargePeaks (sites startDate endDate : Val)
  | gwlevels (sites startDate endDate : Val)
  | info (params : Params)
  | pmcodes (parameterCd : Val)
  | ratings (site fileType : Val)
  | record (params : Params)
  | stats (params : Params)
  | waterUse (params : Params)
  | whatSites (params : Params)

/-- Oracle for the external `dataretrieval.nwis` client: each named query
either returns a table or raises (modelled by `Except.error` carrying the
exception's text `str(e)`). -/
structure Nwis where
  recordSite : Val → Except String Table
  dv : Val → Val → Val → Val → Val → Except String Table
  iv : Val → Val → Val → Val → Except String Table
  dischargeMeasurements : Val → Val → Val → Except String Table
  dischargePeaks : Val → Val → Val → Except String Table
  gwlevels : Val → Val → Val → Except String Table
  info : Params → Except String Table
  pmcodes : Val → Except String Table
  ratings : Val → Val → Except String Table
  record : Params → Except String Table
  stats : Params → Except String Table
  waterUse : Params → Except String Table
  whatSites : Params → Except String Table

/-- An oracle whose every query has the same outcome `r`. -/
def constNwis (r : Except String Table) : Nwis :=
  ⟨fun _ => r, fun _ _ _ _ _ => r, fun _ _ _ _ => r, fun _ _ _ => r,
   fun _ _ _ => r, fun _ _ _ => r, fun _ => r, fun _ => r, fun _ _ => r,
   fun _ => r, fun _ => r, fun _ => r, fun _ => r⟩

/-- `MCPDataRetrieval.get_site_data` (manual_mcp_dataretrieval.py:377). -/
def get_site_data (nw : Nwis) (params : Params) : Envelope × List SvcCall :=
  let site_code := params "site_code"
  if !site_code.truthy then (errorResponse "Site code is required", [])
  else
    match nw.recordSite site_code with
    | .error e => (errorResponse ("Error retrieving site data: " ++ e), [.recordSite site_code])
    | .ok t =>
        let site_info := sanitize t
        if !site_info.isEmpty then
          (successResponse site_info.cols site_info.rows
            ("Successfully retrieved data for site " ++ site_code.pyStr),
           [.recordSite site_code])
        else
          (errorResponse ("No data found for site " ++ site_code.pyStr),
           [.recordSite site_code])

/-- `MCPDataRetrieval.get_daily_values` (manual_mcp_dataretrieval.py:413). -/
def get_daily_values (nw : Nwis) (params : Params) : Envelope × List SvcCall :=
  let site_code := params "site_code"
  let parameter_code := params "parameter_code"
  let statCd := params "statCd"
  if !site_code.truthy then (errorResponse "site_code is required", [])
  else
    let start_date := params "start_date"
    let end_date := params "end_date"
    let call := SvcCall.dv site_code parameter_code statCd start_date end_date
    match nw.dv site_code parameter_code statCd start_date end_date with
    | .error e => (errorResponse ("Error retrieving daily values: " ++ e), [call])
    | .ok t =>
        let daily_data := sanitize t
        if !daily_data.isEmpty then
          (successResponse daily_data.cols daily_data.rows
            ("Successfully retrieved daily values for site " ++ site_code.pyStr), [call])
        else
          (errorResponse "No daily values found for the specified parameters", [call])

/-- `MCPDataRetrieval.get_instantaneous_values` (manual_mcp_dataretrieval.py:469). -/
def get_instantaneous_values (nw : Nwis) (params : Params) : Envelope × List SvcCall :=
  let site_code := params "site_code"
  let parameter_code := params "parameter_code"
  let start_date := params "start_date"
  let end_date := params "end_date"
  if !(site_code.truthy && parameter_code.truthy) then
    (errorResponse "site_code and parameter_code are both required", [])
  else
    let call := SvcCall.iv site_code parameter_code start_date end_date
    match nw.iv site_code parameter_code start_date end_date with
    | .error e => (errorResponse ("Error retrieving instantaneous values: " ++ e), [call])
    | .ok t =>
        let iv_data := sanitize t
        if !iv_data.isEmpty then
          (successResponse iv_data.cols iv_data.rows
            ("Successfully retrieved instantaneous values for site " ++ site_code.pyStr), [call])
        else
          (errorResponse "No instantaneous values found for the specified parameters", [call])

/-- `MCPDataRetrieval.get_discharge_measurements` (manual_mcp_dataretrieval.py:523).
The comma-split list replaces `sites` before the required-parameter check and
is itself forwarded to the external call; there is no emptiness check on the
returned table. -/
def get_discharge_measurements (nw : Nwis) (params : Params) : Envelope × List SvcCall :=
  let sites₀ := params "sites"
  let sites := match sites₀ with
    | .vstr s => Val.vlist (pySplit s ',')
    | v => v
  if !sites.truthy then (errorResponse "Sites parameter is required", [])
  else
    let startDate := params "start"
    let endDate := params "end"
    let call := SvcCall.dischargeMeasurements sites startDate endDate
    match nw.dischargeMeasurements sites startDate endDate with
    | .error e => (errorResponse e, [call])
    | .ok t =>
        let df := sanitize t
        (successResponse df.cols df.rows
          ("Retrieved " ++ toString df.rows.length ++ " discharge measurements"), [call])

/-- `MCPDataRetrieval.get_discharge_peaks` (manual_mcp_dataretrieval.py:562). -/
def get_discharge_peaks (nw : Nwis) (params : Params) : Envelope × List SvcCall :=
  let sites₀ := params "sites"
  let sites := match sites₀ with
    | .vstr s => Val.vlist (pySplit s ',')
    | v => v
  if !sites.truthy then (errorResponse "Sites parameter is required", [])
  else
    let startDate := params "start"
    let endDate := params "end"
    let call := SvcCall.dischargePeaks sites startDate endDate
    match nw.dischargePeaks sites startDate endDate with
    | .error e => (errorResponse e, [call])
    | .ok t =>
        let df := sanitize t
        (successResponse df.cols df.rows
          ("Retrieved " ++ toString df.rows.length ++ " discharge peaks"), [call])

/-- `MCPDataRetrieval.get_gwlevels` (manual_mcp_dataretrieval.py:601). -/
def get_gwlevels (nw : Nwis) (params : Params) : Envelope × List SvcCall :=
  let sites₀ := params "sites"
  let sites := match sites₀ with
    | .vstr s => Val.vlist (pySplit s ',')
    | v => v
  if !sites.truthy then (errorResponse "Sites parameter is required", [])
  else
    let startDate := params "start"
    let endDate := params "end"
    let call := SvcCall.gwlevels sites startDate endDate
    match nw.gwlevels sites startDate endDate with
    | .error e => (errorResponse e, [call])
    | .ok t =>
        let df := sanitize t
        (successResponse df.cols df.rows
          ("Retrieved " ++ toString df.rows.length ++ " groundwater level records"), [call])

/-- `MCPDataRetrieval.get_info` (manual_mcp_dataretrieval.py:640).  The split
`sites` value is used only in the at-least-one-parameter check; the external
call receives the raw mapping (`nwis.get_info(**params)`). -/
def get_info (nw : Nwis) (params : Params) : Envelope × List SvcCall :=
  let sites₀ := params "sites"
  let sites := match sites₀ with
    | .vstr s => Val.vlist (pySplit s ',')
    | v => v
  let stateCd := params "stateCd"
  let huc := params "huc"
  let bBox := params "bBox"
  let countyCd := params "countyCd"
  let startDt := params "startDt"
  let endDt := params "endDt"
  let period := params "period"
  let modifiedSince := params "modifiedSince"
  let parameterCd := params "parameterCd"
  let siteType := params "siteType"
  if !(sites.truthy || stateCd.truthy || huc.truthy || bBox.truthy || countyCd.truthy ||
       startDt.truthy || endDt.truthy || period.truthy || modifiedSince.truthy ||
       parameterCd.truthy || siteType.truthy) then
    (errorResponse "At least one of the parameters is required", [])
  else
    match nw.info params with
    | .error e => (errorResponse e, [.info params])
    | .ok t =>
        let df := sanitize t
        (successResponse df.cols df.rows "Retrieved site information", [.info params])

/-- `MCPDataRetrieval.get_pmcodes` (manual_mcp_dataretrieval.py:687). -/
def get_pmcodes (nw : Nwis) (params : Params) : Envelope × List SvcCall :=
  let parameterCd := params "parameterCd"
  if !parameterCd.truthy then (errorResponse "Parameter code is required", [])
  else
    match nw.pmcodes parameterCd with
    | .error e => (errorResponse e, [.pmcodes parameterCd])
    | .ok t =>
        let df := sanitize t
        (successResponse df.cols df.rows
          ("Retrieved " ++ toString df.rows.length ++ " parameter codes"), [.pmcodes parameterCd])

/-- `MCPDataRetrieval.get_ratings` (manual_mcp_dataretrieval.py:718).
`params.get("file_type", "base")` defaults to `"base"` when the key is
absent; key absence is modelled by `Val.vnone`. -/
def get_ratings (nw : Nwis) (params : Params) : Envelope × List SvcCall :=
  let site := params "site"
  if !site.truthy then (errorResponse "Site parameter is required", [])
  else
    let file_type := match params "file_type" with
      | .vnone => Val.vstr "base"
      | v => v
    match nw.ratings site file_type with
    | .error e => (errorResponse e, [.ratings site file_type])
    | .ok t =>
        let df := sanitize t
        (successResponse df.cols df.rows
          ("Retrieved " ++ toString df.rows.length ++ " rating records for site " ++ site.pyStr),
         [.ratings site file_type])

/-- `MCPDataRetrieval.get_record` (manual_mcp_dataretrieval.py:752): no
validation; the raw mapping is forwarded. -/
def get_record (nw : Nwis) (params : Params) : Envelope × List SvcCall :=
  match nw.record params with
  | .error e => (errorResponse e, [.record params])
  | .ok t =>
      let df := sanitize t
      (successResponse df.cols df.rows
        ("Retrieved " ++ toString df.rows.length ++ " records"), [.record params])

/-- `MCPDataRetrieval.get_stats` (manual_mcp_dataretrieval.py:780).  The
comma-split `sites` value is bound to a local variable and never used: the
external call receives the raw mapping (`nwis.get_stats(**params)`). -/
def get_stats (nw : Nwis) (params : Params) : Envelope × List SvcCall :=
  let sites₀ := params "sites"
  let _sites := match sites₀ with
    | .vstr s => Val.vlist (pySplit s ',')
    | v => v
  match nw.stats params with
  | .error e => (errorResponse e, [.stats params])
  | .ok t =>
      let df := sanitize t
      (successResponse df.cols df.rows "Retrieved statistical data", [.stats params])

/-- `MCPDataRetrieval.get_water_use` (manual_mcp_dataretrieval.py:816).  The
split `years` value is used only in the at-least-one-parameter check; the
external call receives the raw mapping (`nwis.get_water_use(**params)`).
Two named columns are dropped from the result before sanitizing. -/
def get_water_use (nw : Nwis) (params : Params) : Envelope × List SvcCall :=
  let years₀ := params "years"
  let years := if years₀.truthy then
      match years₀ with
      | .vstr s => Val.vlist (pySplit s ',')
      | v => v
    else years₀
  let state := params "state"
  let counties := params "counties"
  let categories := params "categories"
  if !(years.truthy || state.truthy || counties.truthy || categories.truthy) then
    (errorResponse "At least one of the parameters is required", [])
  else
    match nw.waterUse params with
    | .error e => (errorResponse e, [.waterUse params])
    | .ok t =>
        let t₁ := t.dropNamed ["state_cd", "county_cd"]
        let df := sanitize t₁
        (successResponse df.cols df.rows "Retrieved water use data", [.waterUse params])

/-- `MCPDataRetrieval.what_sites` (manual_mcp_dataretrieval.py:857): no
validation; the raw mapping is forwarded. -/
def what_sites (nw : Nwis) (params : Params) : Envelope × List SvcCall :=
  match nw.whatSites params with
  | .error e => (errorResponse e, [.whatSites params])
  | .ok t =>
      let df := sanitize t
      (successResponse df.cols df.rows
        ("Found " ++ toString df.rows.length ++ " sites matching the criteria"), [.whatSites params])

/-- The keys of `self.functions`, in insertion order
(`MCPDataRetrieval.__init__`, manual_mcp_dataretrieval.py:15). -/
def functionNames : List String :=
  ["get_site_data", "get_daily_values", "get_instantaneous_values",
   "get_discharge_measurements", "get_discharge_peaks", "get_gwlevels",
   "get_info", "get_pmcodes", "get_ratings", "get_record", "get_stats",
   "get_water_use", "what_sites"]

/-- `MCPDataRetrieval.call_function` (manual_mcp_dataretrieval.py:916):
dictionary lookup in `self.functions`, with the unknown-name error message
joining all registered names. -/
def call_function (nw : Nwis) (function_name : String) (params : Params) :
    Envelope × List SvcCall :=
  if function_name = "get_site_data" then get_site_data nw params
  else if function_name = "get_daily_values" then get_daily_values nw params
  else if function_name = "get_instantaneous_values" then get_instantaneous_values nw params
  else if function_name = "get_discharge_measurements" then get_discharge_measurements nw params
  else if function_name = "get_discharge_peaks" then get_discharge_peaks nw params
  else if function_name = "get_gwlevels" then get_gwlevels nw params
  else if function_name = "get_info" then get_info nw params
  else if function_name = "get_pmcodes" then get_pmcodes nw params
  else if function_name = "get_ratings" then get_ratings nw params
  else if function_name = "get_record" then get_record nw params
  else if function_name = "get_stats" then get_stats nw params
  else if function_name = "get_water_use" then get_water_use nw params
  else if function_name = "what_sites" then what_sites nw params
  else
    (errorResponse ("Function '" ++ function_name ++ "' not found. Available functions: " ++
       String.intercalate ", " functionNames), [])

/-- One entry of the MCP function catalog: name, description, the parameter
names of `parameters.properties` in order, and the `required` list. -/
structure FunctionDescriptor where
  name : String
  description : String
  properties : List String
  required : List String
  deriving DecidableEq, Repr

/-- `MCPDataRetrieval.get_mcp_functions` (manual_mcp_dataretrieval.py:33):
the 12 hand-maintained catalog descriptors, in source order. -/
def get_mcp_functions : List FunctionDescriptor :=
  [⟨"get_site_data", "Get information about a specific USGS water monitoring site",
    ["site_code"], ["site_code"]⟩,
   ⟨"get_daily_values", "Get daily values of water data",
    ["site_code", "parameter_code", "statCd", "start_date", "end_date"], ["site_code"]⟩,
   ⟨"get_instantaneous_values", "Get instantaneous values of water data",
    ["site_code", "parameter_code", "start_date", "end_date"], ["site_code", "parameter_code"]⟩,
   ⟨"get_discharge_measurements", "Get discharge measurements from the waterdata service",
    ["sites", "start", "end"], ["sites"]⟩,
   ⟨"get_discharge_peaks", "Get discharge peaks from the waterdata service",
    ["sites", "start", "end"], ["sites"]⟩,
   ⟨"get_gwlevels", "Get groundwater levels from the waterdata service",
    ["sites", "start", "end"], ["sites"]⟩,
   ⟨"get_ratings", "Get rating table for an active USGS streamgage",
    ["site", "file_type"], ["site"]⟩,
   ⟨"what_sites", "Search NWIS for sites within a region with specific data",
    ["stateCd", "siteType", "county", "huc"], []⟩,
   ⟨"get_stats", "Get water services statistics information",
    ["sites", "parameterCd", "statReportType", "statTypeCd"], []⟩,
   ⟨"get_info", "Get site description information from NWIS",
    ["sites", "stateCd", "huc", "bBox", "countyCd", "startDt", "endDt", "period",
     "modifiedSince", "parameterCd", "siteType", "siteOutput", "seriesCatalogOutput"], []⟩,
   ⟨"get_pmcodes", "Get NWIS parameter codes", ["parameterCd"], []⟩,
   ⟨"get_water_use", "Get water use data from USGS (NWIS)",
    ["years", "state", "counties", "categories"], []⟩]

/-- A function call parsed from one delimited block of the model's reply:
the dictionary's `name` and `parameters` entries. -/
structure FnCall where
  name : String
  parameters : Params

/-- Python `s.strip()`: drop whitespace from both ends of the string. -/
def pyStrip (s : String) : String :=
  String.mk (((s.data.dropWhile Char.isWhitespace).reverse.dropWhile Char.isWhitespace).reverse)

/-- The extraction loop of `MCPAgent._extract_function_calls`
(example_agent.py:116): `matchList` is the list of substrings found between
the `<function_call>` delimiters by the regular expression, and `decode`
models `json.loads` (standard library), returning `none` exactly on
malformed JSON.  Each block is stripped and parsed; a block whose parse
raises is silently skipped. -/
def extract_function_calls (decode : String → Option FnCall) (matchList : List String) :
    List FnCall :=
  matchList.filterMap (fun m => decode (pyStrip m))

/-- The dispatch loop of `MCPAgent.process_query` (example_agent.py:44):
each extracted call is executed once through the dispatcher and its
envelope collected, in order. -/
def process_function_calls (nw : Nwis) (calls : List FnCall) :
    List (String × Envelope) :=
  calls.map (fun c => (c.name, (call_function nw c.name c.parameters).1))

/-! ### Supporting lemmas -/

theorem pySplit_ne_nil (s : String) (c : Char) : pySplit s c ≠ [] := by
  intro hcontra
  rw [pySplit, List.map_eq_nil_iff] at hcontra
  exact List.splitOnP_ne_nil _ _ hcontra

theorem pySplit_truthy (s : String) (c : Char) :
    (Val.vlist (pySplit s c)).truthy = true := by
  simp [Val.truthy, pySplit_ne_nil s c]

theorem restrict_rows_length (t : Table) (idxs : List Nat) :
    (t.restrict idxs).rows.length = t.rows.length := by
  simp [Table.restrict]

theorem restrict_cols_length (t : Table) (idxs : List Nat) :
    (t.restrict idxs).cols.length = idxs.length := by
  simp [Table.restrict]

/-- Column `j` of a restricted table is the column of the original table at
the `j`-th selected index. -/
theorem restrict_col (t : Table) (idxs : List Nat) (j : Nat) (h : j < idxs.length) :
    (t.restrict idxs).col j = t.col idxs[j] := by
  simp only [Table.restrict, Table.col, List.map_map]
  refine List.map_congr_left (fun r _ => ?_)
  simp only [Function.comp_apply]
  have hj : j < (idxs.map (fun j' => r.getD j' none)).length := by simpa using h
  rw [List.getD_eq_getElem _ none hj, List.getElem_map]

/-- A column of a table restricted to the indices passing a predicate `P`
comes from an original column index that satisfies `P`. -/
theorem restrict_filter_col (t : Table) (P : Nat → Bool) (j : Nat)
    (h : j < (t.restrict ((List.range t.cols.length).filter P)).cols.length) :
    ∃ oj, oj < t.cols.length ∧
      (t.restrict ((List.range t.cols.length).filter P)).col j = t.col oj ∧
      P oj = true := by
  set idxs := (List.range t.cols.length).filter P with hidxs
  have h' : j < idxs.length := by rw [restrict_cols_length] at h; exact h
  have hcol : (t.restrict idxs).col j = t.col idxs[j] := restrict_col _ _ _ h'
  have hmem : idxs[j] ∈ (List.range t.cols.length).filter P := List.getElem_mem h'
  rw [List.mem_filter, List.mem_range] at hmem
  exact ⟨idxs[j], hmem.1, hcol, hmem.2⟩

theorem sanitize_rows_length (t : Table) :
    (sanitize t).rows.length = t.rows.length := by
  simp [sanitize, dropAllSentinelColumns, dropAllNaColumns, Table.restrict]

/-- Every column of the sanitized table is a column of the input table that
passes both keep-predicates: it has a present cell, and a cell unequal to
the sentinel. -/
theorem sanitize_surviving_col (t : Table) (j : Nat)
    (h : j < (sanitize t).cols.length) :
    ∃ oj, oj < t.cols.length ∧ (sanitize t).col j = t.col oj ∧
      colNonNa (t.col oj) = true ∧ colNonSent (t.col oj) = true := by
  unfold sanitize dropAllSentinelColumns at h ⊢
  obtain ⟨oj2, hlt2, hcol2, hsent⟩ :=
    restrict_filter_col (dropAllNaColumns t)
      (fun j' => colNonSent ((dropAllNaColumns t).col j')) j h
  unfold dropAllNaColumns at hlt2 hcol2 hsent ⊢
  obtain ⟨oj, hlt1, hcol1, hna⟩ :=
    restrict_filter_col t (fun j' => colNonNa (t.col j')) oj2 hlt2
  refine ⟨oj, hlt1, ?_, hna, ?_⟩
  · rw [hcol2, hcol1]
  · rw [hcol1] at hsent; exact hsent

/-- Sanitizing a zero-row table removes every column: both keep-predicates
(`any` over an empty column) are vacuously false. -/
theorem sanitize_of_rows_nil (t : Table) (h : t.rows = []) :
    sanitize t = ⟨[], []⟩ := by
  have hcol : ∀ j, t.col j = [] := by intro j; simp [Table.col, h]
  simp [sanitize, dropAllNaColumns, dropAllSentinelColumns, Table.restrict,
    Table.col, colNonNa, colNonSent, h]

theorem dropNamed_rows_nil (t : Table) (names : List String) (h : t.rows = []) :
    (t.dropNamed names).rows = [] := by
  simp [Table.dropNamed, Table.restrict, h]

/-- Sanitizing any empty table (pandas `df.empty`: no rows or no columns)
removes every column; the rows become `df.values.tolist()` of a zero-column
frame — the empty list for a zero-row input, otherwise one empty row per
input row. -/
theorem sanitize_of_empty (t : Table) (h : t.rows = [] ∨ t.cols = []) :
    sanitize t = ⟨[], t.rows.map (fun _ => [])⟩ := by
  cases h with
  | inl h => rw [sanitize_of_rows_nil t h, h]; rfl
  | inr h =>
      simp [sanitize, dropAllNaColumns, dropAllSentinelColumns, Table.restrict,
        Table.col, h]

theorem dropNamed_cols_nil (t : Table) (names : List String) (h : t.cols = []) :
    t.dropNamed names = ⟨[], t.rows.map (fun _ => [])⟩ := by
  simp [Table.dropNamed, Table.restrict, h]

/-- The column-drop-then-sanitize pipeline of `get_water_use` on any empty
table also yields the fully-column-dropped result. -/
theorem sanitize_dropNamed_of_empty (t : Table) (names : List String)
    (h : t.rows = [] ∨ t.cols = []) :
    sanitize (t.dropNamed names) = ⟨[], t.rows.map (fun _ => [])⟩ := by
  cases h with
  | inl h =>
      rw [sanitize_of_rows_nil _ (dropNamed_rows_nil t names h), h]
      rfl
  | inr h =>
      rw [dropNamed_cols_nil t names h,
        sanitize_of_empty ⟨[], t.rows.map (fun _ => [])⟩ (Or.inr rfl)]
      simp

/-! ### Concrete fixtures used by counterexamples and witnesses -/

/-- A parameter mapping carrying only a `sites` value. -/
def sitesParams : Params := fun k => if k = "sites" then Val.vstr "09380000" else Val.vnone

/-- A parameter mapping whose every key holds the non-empty string `"1"`. -/
def allStrParams : Params := fun _ => Val.vstr "1"

/-- The everywhere-absent parameter mapping. -/
def noneParams : Params := fun _ => Val.vnone

/-- A service response with one column and no rows. -/
def zeroRowTable : Table := ⟨["measurement_dt"], []⟩

/-- A one-column table whose cells are a missing value and a sentinel. -/
def naSentTable : Table := ⟨["a"], [[none], [some "-"]]⟩

/-- A one-column, one-row table with an ordinary value. -/
def plainTable : Table := ⟨["a"], [[some "x"]]⟩

/-- An oracle whose every query raises. -/
def trivialNwis : Nwis := constNwis (Except.error "network unavailable")

/-! ### Claim theorems -/

/-- C3 counterexample: the table whose single column holds a missing value
and a sentinel survives sanitation (the missing cell defeats the sentinel
filter, the sentinel cell defeats the missing filter), yet no surviving cell
is both present and different from the sentinel — refuting the claim that
every surviving column has at least one value that is neither missing nor
the sentinel. -/
theorem c3_counterexample :
    ¬ ((∀ j, j < (sanitize naSentTable).cols.length →
          ∃ c ∈ (sanitize naSentTable).col j, c ≠ none ∧ c ≠ some "-") ∧
        (sanitize naSentTable).rows.length = naSentTable.rows.length) := by
  decide

/-- C3 amended: the sanitized table has exactly as many rows as the input,
and every surviving column has at least one non-missing value and at least
one value that compares unequal to the sentinel `"-"` — where, as in the
code, a missing value counts as unequal to the sentinel. -/
theorem c3_sanitizer_amended : ∀ (t : Table) (j : Nat),
    j < (sanitize t).cols.length →
    (sanitize t).rows.length = t.rows.length ∧
    (∃ c ∈ (sanitize t).col j, c ≠ none) ∧
    (∃ c ∈ (sanitize t).col j, cellNeSentinel c = true) := by
  intro t j h
  obtain ⟨oj, _, hcol, hna, hsent⟩ := sanitize_surviving_col t j h
  refine ⟨sanitize_rows_length t, ?_, ?_⟩
  · rw [hcol]
    rw [colNonNa] at hna
    obtain ⟨c, hc, hcs⟩ := List.any_eq_true.mp hna
    exact ⟨c, hc, by simpa [Option.isSome_iff_ne_none] using hcs⟩
  · rw [hcol]
    rw [colNonSent] at hsent
    obtain ⟨c, hc, hcs⟩ := List.any_eq_true.mp hsent
    exact ⟨c, hc, hcs⟩

/-- Witness for the amended C3 at a concrete surviving column. -/
theorem c3_sanitizer_amended_witness :
    0 < (sanitize plainTable).cols.length ∧
    ((sanitize plainTable).rows.length = plainTable.rows.length ∧
     (∃ c ∈ (sanitize plainTable).col 0, c ≠ none) ∧
     (∃ c ∈ (sanitize plainTable).col 0, cellNeSentinel c = true)) :=
  ⟨by decide, c3_sanitizer_amended plainTable 0 (by decide)⟩

/-- C10: sanitizing any zero-row table removes every column, and
`get_discharge_measurements`, which performs no emptiness check, serializes
the result as a success envelope with empty `column_names` and `data`. -/
theorem c10_zero_row_table_success : ∀ (t : Table) (p : Params) (s : String),
    t.rows = [] → p "sites" = Val.vstr s →
    (sanitize t).cols = [] ∧ (sanitize t).rows = [] ∧
    (get_discharge_measurements (constNwis (Except.ok t)) p).1 =
      successResponse [] [] "Retrieved 0 discharge measurements" := by
  intro t p s hrows hsites
  have hsan := sanitize_of_rows_nil t hrows
  refine ⟨by rw [hsan], by rw [hsan], ?_⟩
  simp [get_discharge_measurements, hsites, pySplit_truthy, constNwis, hsan]
  rfl

/-- Witness for C10 at a concrete zero-row table. -/
theorem c10_zero_row_table_success_witness :
    (sanitize zeroRowTable).cols = [] ∧ (sanitize zeroRowTable).rows = [] ∧
    (get_discharge_measurements (constNwis (Except.ok zeroRowTable)) sitesParams).1 =
      successResponse [] [] "Retrieved 0 discharge measurements" :=
  c10_zero_row_table_success zeroRowTable sitesParams "09380000" rfl rfl

/-- C1 counterexample: with the service succeeding on an empty (zero-row)
table, `get_discharge_measurements` returns a success envelope (an empty
successful result), not the status "error" the claim requires of every
operation. -/
theorem c1_counterexample :
    zeroRowTable.rows = [] ∧
    (get_discharge_measurements (constNwis (Except.ok zeroRowTable)) sitesParams).1 =
      successResponse [] [] "Retrieved 0 discharge measurements" ∧
    (get_discharge_measurements (constNwis (Except.ok zeroRowTable)) sitesParams).1.status
      ≠ "error" := by
  refine ⟨rfl, by decide, by decide⟩

/-- C1 amended: on any empty table returned by a successful external call
(pandas `df.empty`: no rows or no columns), only the site lookup, daily
values and instantaneous values operations return a status "error" envelope
(with their exact no-data messages); every other operation serializes it as
a status "success" envelope whose `column_names` is empty and whose `data`
holds no values — the empty list for a zero-row table, otherwise one empty
row per input row, exactly `df.values.tolist()` of the fully-column-dropped
frame. -/
theorem c1_amended_empty_table_policy : ∀ (t : Table) (p : Params),
    t.rows = [] ∨ t.cols = [] →
    ((p "site_code").truthy = true →
       (get_site_data (constNwis (Except.ok t)) p).1 =
         errorResponse ("No data found for site " ++ (p "site_code").pyStr)) ∧
    ((p "site_code").truthy = true →
       (get_daily_values (constNwis (Except.ok t)) p).1 =
         errorResponse "No daily values found for the specified parameters") ∧
    ((p "site_code").truthy = true → (p "parameter_code").truthy = true →
       (get_instantaneous_values (constNwis (Except.ok t)) p).1 =
         errorResponse "No instantaneous values found for the specified parameters") ∧
    (∀ s, p "sites" = Val.vstr s →
       (get_discharge_measurements (constNwis (Except.ok t)) p).1 =
         successResponse [] (t.rows.map (fun _ => []))
           ("Retrieved " ++ toString t.rows.length ++ " discharge measurements")) ∧
    (∀ s, p "sites" = Val.vstr s →
       (get_discharge_peaks (constNwis (Except.ok t)) p).1 =
         successResponse [] (t.rows.map (fun _ => []))
           ("Retrieved " ++ toString t.rows.length ++ " discharge peaks")) ∧
    (∀ s, p "sites" = Val.vstr s →
       (get_gwlevels (constNwis (Except.ok t)) p).1 =
         successResponse [] (t.rows.map (fun _ => []))
           ("Retrieved " ++ toString t.rows.length ++ " groundwater level records")) ∧
    ((p "stateCd").truthy = true →
       (get_info (constNwis (Except.ok t)) p).1 =
         successResponse [] (t.rows.map (fun _ => [])) "Retrieved site information") ∧
    ((p "parameterCd").truthy = true →
       (get_pmcodes (constNwis (Except.ok t)) p).1 =
         successResponse [] (t.rows.map (fun _ => []))
           ("Retrieved " ++ toString t.rows.length ++ " parameter codes")) ∧
    ((p "site").truthy = true →
       (get_ratings (constNwis (Except.ok t)) p).1 =
         successResponse [] (t.rows.map (fun _ => []))
           ("Retrieved " ++ toString t.rows.length ++ " rating records for site " ++
             (p "site").pyStr)) ∧
    ((get_record (constNwis (Except.ok t)) p).1 =
       successResponse [] (t.rows.map (fun _ => []))
         ("Retrieved " ++ toString t.rows.length ++ " records")) ∧
    ((get_stats (constNwis (Except.ok t)) p).1 =
       successResponse [] (t.rows.map (fun _ => [])) "Retrieved statistical data") ∧
    ((p "state").truthy = true →
       (get_water_use (constNwis (Except.ok t)) p).1 =
         successResponse [] (t.rows.map (fun _ => [])) "Retrieved water use data") ∧
    ((what_sites (constNwis (Except.ok t)) p).1 =
       successResponse [] (t.rows.map (fun _ => []))
         ("Found " ++ toString t.rows.length ++ " sites matching the criteria")) := by
  intro t p hempty
  have hsan := sanitize_of_empty t hempty
  have hsanW := sanitize_dropNamed_of_empty t ["state_cd", "county_cd"] hempty
  refine ⟨?_, ?_, ?_, ?_, ?_, ?_, ?_, ?_, ?_, ?_, ?_, ?_, ?_⟩
  · intro hc
    simp [get_site_data, hc, constNwis, hsan, Table.isEmpty, errorResponse]
  · intro hc
    simp [get_daily_values, hc, constNwis, hsan, Table.isEmpty, errorResponse]
  · intro hc hpc
    simp [get_instantaneous_values, hc, hpc, constNwis, hsan, Table.isEmpty, errorResponse]
  · intro s hs
    simp [get_discharge_measurements, hs, pySplit_truthy, constNwis, hsan]
  · intro s hs
    simp [get_discharge_peaks, hs, pySplit_truthy, constNwis, hsan]
  · intro s hs
    simp [get_gwlevels, hs, pySplit_truthy, constNwis, hsan]
  · intro hst
    simp [get_info, hst, constNwis, hsan]
  · intro hpc
    simp [get_pmcodes, hpc, constNwis, hsan]
  · intro hsi
    simp [get_ratings, hsi, constNwis, hsan]
  · simp [get_record, constNwis, hsan]
  · simp [get_stats, constNwis, hsan]
  · intro hst
    simp [get_water_use, hst, constNwis, hsanW]
  · simp [what_sites, constNwis, hsan]

/-- A zero-column table with two rows: empty per pandas `df.empty` although
it has rows. -/
def colLessTable : Table := ⟨[], [[], []]⟩

/-- Witness for the amended C1, every hypothesis discharged on a concrete
zero-row table (and, for the zero-column branch, on a two-row zero-column
table) with a parameter mapping carrying values for every key. -/
theorem c1_amended_empty_table_policy_witness :
    (get_site_data (constNwis (Except.ok zeroRowTable)) allStrParams).1 =
      errorResponse ("No data found for site " ++ (allStrParams "site_code").pyStr) ∧
    (get_daily_values (constNwis (Except.ok zeroRowTable)) allStrParams).1 =
      errorResponse "No daily values found for the specified parameters" ∧
    (get_instantaneous_values (constNwis (Except.ok zeroRowTable)) allStrParams).1 =
      errorResponse "No instantaneous values found for the specified parameters" ∧
    (get_discharge_measurements (constNwis (Except.ok zeroRowTable)) allStrParams).1 =
      successResponse [] (zeroRowTable.rows.map (fun _ => []))
        ("Retrieved " ++ toString zeroRowTable.rows.length ++ " discharge measurements") ∧
    (get_discharge_peaks (constNwis (Except.ok zeroRowTable)) allStrParams).1 =
      successResponse [] (zeroRowTable.rows.map (fun _ => []))
        ("Retrieved " ++ toString zeroRowTable.rows.length ++ " discharge peaks") ∧
    (get_gwlevels (constNwis (Except.ok zeroRowTable)) allStrParams).1 =
      successResponse [] (zeroRowTable.rows.map (fun _ => []))
        ("Retrieved " ++ toString zeroRowTable.rows.length ++ " groundwater level records") ∧
    (get_info (constNwis (Except.ok zeroRowTable)) allStrParams).1 =
      successResponse [] (zeroRowTable.rows.map (fun _ => []))
        "Retrieved site information" ∧
    (get_pmcodes (constNwis (Except.ok zeroRowTable)) allStrParams).1 =
      successResponse [] (zeroRowTable.rows.map (fun _ => []))
        ("Retrieved " ++ toString zeroRowTable.rows.length ++ " parameter codes") ∧
    (get_ratings (constNwis (Except.ok zeroRowTable)) allStrParams).1 =
      successResponse [] (zeroRowTable.rows.map (fun _ => []))
        ("Retrieved " ++ toString zeroRowTable.rows.length ++ " rating records for site " ++
          (allStrParams "site").pyStr) ∧
    (get_record (constNwis (Except.ok zeroRowTable)) allStrParams).1 =
      successResponse [] (zeroRowTable.rows.map (fun _ => []))
        ("Retrieved " ++ toString zeroRowTable.rows.length ++ " records") ∧
    (get_stats (constNwis (Except.ok zeroRowTable)) allStrParams).1 =
      successResponse [] (zeroRowTable.rows.map (fun _ => []))
        "Retrieved statistical data" ∧
    (get_water_use (constNwis (Except.ok zeroRowTable)) allStrParams).1 =
      successResponse [] (zeroRowTable.rows.map (fun _ => []))
        "Retrieved water use data" ∧
    (what_sites (constNwis (Except.ok zeroRowTable)) allStrParams).1 =
      successResponse [] (zeroRowTable.rows.map (fun _ => []))
        ("Found " ++ toString zeroRowTable.rows.length ++ " sites matching the criteria") ∧
    (get_site_data (constNwis (Except.ok colLessTable)) allStrParams).1 =
      errorResponse ("No data found for site " ++ (allStrParams "site_code").pyStr) ∧
    (get_discharge_measurements (constNwis (Except.ok colLessTable)) allStrParams).1 =
      successResponse [] (colLessTable.rows.map (fun _ => []))
        ("Retrieved " ++ toString colLessTable.rows.length ++ " discharge measurements") ∧
    (get_water_use (constNwis (Except.ok colLessTable)) allStrParams).1 =
      successResponse [] (colLessTable.rows.map (fun _ => []))
        "Retrieved water use data" := by
  have h := c1_amended_empty_table_policy zeroRowTable allStrParams (Or.inl rfl)
  have h' := c1_amended_empty_table_policy colLessTable allStrParams (Or.inr rfl)
  exact ⟨h.1 (by decide), h.2.1 (by decide), h.2.2.1 (by decide) (by decide),
    h.2.2.2.1 "1" rfl, h.2.2.2.2.1 "1" rfl, h.2.2.2.2.2.1 "1" rfl,
    h.2.2.2.2.2.2.1 (by decide), h.2.2.2.2.2.2.2.1 (by decide),
    h.2.2.2.2.2.2.2.2.1 (by decide), h.2.2.2.2.2.2.2.2.2.1,
    h.2.2.2.2.2.2.2.2.2.2.1, h.2.2.2.2.2.2.2.2.2.2.2.1 (by decide),
    h.2.2.2.2.2.2.2.2.2.2.2.2,
    h'.1 (by decide), h'.2.2.2.1 "1" rfl,
    h'.2.2.2.2.2.2.2.2.2.2.2.1 (by decide)⟩

/-- C2 counterexample: `get_record` is registered in the dispatch table and
really dispatches (here it reaches the external service and returns a
success envelope rather than the unknown-name error), yet the catalog
returned by `get_mcp_functions` holds no descriptor named `get_record`. -/
theorem c2_counterexample :
    "get_record" ∈ functionNames ∧
    (get_mcp_functions.filter (fun d => d.name == "get_record")).length = 0 ∧
    (call_function (constNwis (Except.ok plainTable)) "get_record" noneParams).1.status
      = "success" ∧
    (call_function trivialNwis "get_record" noneParams).2 = [SvcCall.record noneParams] :=
  ⟨by decide, by decide, by decide, rfl⟩

/-- C2 amended: every catalog descriptor's name is dispatchable and has
exactly one descriptor; conversely every dispatchable name except the
generic record fetch `get_record` has exactly one descriptor, while
`get_record` is dispatchable with none.  No registered name produces the
dispatcher's unknown-function error. -/
theorem c2_catalog_amended :
    (∀ d ∈ get_mcp_functions, d.name ∈ functionNames ∧
       (get_mcp_functions.filter (fun d' => d'.name == d.name)).length = 1) ∧
    (∀ n ∈ functionNames, n ≠ "get_record" →
       (get_mcp_functions.filter (fun d' => d'.name == n)).length = 1) ∧
    (get_mcp_functions.filter (fun d' => d'.name == "get_record")).length = 0 ∧
    (∀ n ∈ functionNames,
       (call_function trivialNwis n noneParams).1.message ≠
         some ("Function '" ++ n ++ "' not found. Available functions: " ++
           String.intercalate ", " functionNames)) := by
  decide

/-- Witness for the amended C2 at a concrete catalog descriptor and name. -/
theorem c2_catalog_amended_witness :
    ("get_site_data" ∈ functionNames ∧
     (get_mcp_functions.filter (fun d' => d'.name == "get_site_data")).length = 1) ∧
    (call_function trivialNwis "get_site_data" noneParams).1.message ≠
      some ("Function '" ++ "get_site_data" ++ "' not found. Available functions: " ++
        String.intercalate ", " functionNames) :=
  ⟨⟨by decide, c2_catalog_amended.2.1 "get_site_data" (by decide) (by decide)⟩,
   c2_catalog_amended.2.2.2 "get_site_data" (by decide)⟩

/-- C5 counterexample: when the external call in `get_site_data` raises with
text "boom", the envelope's message is the prefixed string
"Error retrieving site data: boom", not the raised exception's text. -/
theorem c5_counterexample :
    (get_site_data (constNwis (Except.error "boom")) allStrParams).1.status = "error" ∧
    (get_site_data (constNwis (Except.error "boom")) allStrParams).1.message =
      some "Error retrieving site data: boom" ∧
    (get_site_data (constNwis (Except.error "boom")) allStrParams).1.message ≠
      some ("boom" : String) := by
  decide

/-- C5 amended: every operation converts a raised exception into a status
"error" envelope carrying no `column_names` and no `data`; the message is
the exception's text verbatim for all operations except site lookup, daily
values and instantaneous values, which prepend a fixed description. -/
theorem c5_amended_exception_policy : ∀ (e : String) (p : Params),
    ((p "site_code").truthy = true →
       (get_site_data (constNwis (Except.error e)) p).1 =
         errorResponse ("Error retrieving site data: " ++ e)) ∧
    ((p "site_code").truthy = true →
       (get_daily_values (constNwis (Except.error e)) p).1 =
         errorResponse ("Error retrieving daily values: " ++ e)) ∧
    ((p "site_code").truthy = true → (p "parameter_code").truthy = true →
       (get_instantaneous_values (constNwis (Except.error e)) p).1 =
         errorResponse ("Error retrieving instantaneous values: " ++ e)) ∧
    (∀ s, p "sites" = Val.vstr s →
       (get_discharge_measurements (constNwis (Except.error e)) p).1 = errorResponse e) ∧
    (∀ s, p "sites" = Val.vstr s →
       (get_discharge_peaks (constNwis (Except.error e)) p).1 = errorResponse e) ∧
    (∀ s, p "sites" = Val.vstr s →
       (get_gwlevels (constNwis (Except.error e)) p).1 = errorResponse e) ∧
    ((p "stateCd").truthy = true →
       (get_info (constNwis (Except.error e)) p).1 = errorResponse e) ∧
    ((p "parameterCd").truthy = true →
       (get_pmcodes (constNwis (Except.error e)) p).1 = errorResponse e) ∧
    ((p "site").truthy = true →
       (get_ratings (constNwis (Except.error e)) p).1 = errorResponse e) ∧
    ((get_record (constNwis (Except.error e)) p).1 = errorResponse e) ∧
    ((get_stats (constNwis (Except.error e)) p).1 = errorResponse e) ∧
    ((p "state").truthy = true →
       (get_water_use (constNwis (Except.error e)) p).1 = errorResponse e) ∧
    ((what_sites (constNwis (Except.error e)) p).1 = errorResponse e) := by
  intro e p
  refine ⟨?_, ?_, ?_, ?_, ?_, ?_, ?_, ?_, ?_, ?_, ?_, ?_, ?_⟩
  · intro hc; simp [get_site_data, hc, constNwis]
  · intro hc; simp [get_daily_values, hc, constNwis]
  · intro hc hpc; simp [get_instantaneous_values, hc, hpc, constNwis]
  · intro s hs; simp [get_discharge_measurements, hs, pySplit_truthy, constNwis]
  · intro s hs; simp [get_discharge_peaks, hs, pySplit_truthy, constNwis]
  · intro s hs; simp [get_gwlevels, hs, pySplit_truthy, constNwis]
  · intro hst; simp [get_info, hst, constNwis]
  · intro hpc; simp [get_pmcodes, hpc, constNwis]
  · intro hsi; simp [get_ratings, hsi, constNwis]
  · simp [get_record, constNwis]
  · simp [get_stats, constNwis]
  · intro hst; simp [get_water_use, hst, constNwis]
  · simp [what_sites, constNwis]

/-- Witness for the amended C5, every hypothesis discharged on a concrete
exception text and a parameter mapping carrying values for every key. -/
theorem c5_amended_exception_policy_witness :
    (get_site_data (constNwis (Except.error "boom")) allStrParams).1 =
      errorResponse ("Error retrieving site data: " ++ "boom") ∧
    (get_daily_values (constNwis (Except.error "boom")) allStrParams).1 =
      errorResponse ("Error retrieving daily values: " ++ "boom") ∧
    (get_instantaneous_values (constNwis (Except.error "boom")) allStrParams).1 =
      errorResponse ("Error retrieving instantaneous values: " ++ "boom") ∧
    (get_discharge_measurements (constNwis (Except.error "boom")) allStrParams).1 =
      errorResponse "boom" ∧
    (get_discharge_peaks (constNwis (Except.error "boom")) allStrParams).1 =
      errorResponse "boom" ∧
    (get_gwlevels (constNwis (Except.error "boom")) allStrParams).1 =
      errorResponse "boom" ∧
    (get_info (constNwis (Except.error "boom")) allStrParams).1 = errorResponse "boom" ∧
    (get_pmcodes (constNwis (Except.error "boom")) allStrParams).1 = errorResponse "boom" ∧
    (get_ratings (constNwis (Except.error "boom")) allStrParams).1 = errorResponse "boom" ∧
    (get_record (constNwis (Except.error "boom")) allStrParams).1 = errorResponse "boom" ∧
    (get_stats (constNwis (Except.error "boom")) allStrParams).1 = errorResponse "boom" ∧
    (get_water_use (constNwis (Except.error "boom")) allStrParams).1 = errorResponse "boom" ∧
    (what_sites (constNwis (Except.error "boom")) allStrParams).1 = errorResponse "boom" := by
  have h := c5_amended_exception_policy "boom" allStrParams
  exact ⟨h.1 (by decide), h.2.1 (by decide), h.2.2.1 (by decide) (by decide),
    h.2.2.2.1 "1" rfl, h.2.2.2.2.1 "1" rfl, h.2.2.2.2.2.1 "1" rfl,
    h.2.2.2.2.2.2.1 (by decide), h.2.2.2.2.2.2.2.1 (by decide),
    h.2.2.2.2.2.2.2.2.1 (by decide), h.2.2.2.2.2.2.2.2.2.1,
    h.2.2.2.2.2.2.2.2.2.2.1, h.2.2.2.2.2.2.2.2.2.2.2.1 (by decide),
    h.2.2.2.2.2.2.2.2.2.2.2.2⟩

/-- C6: for any function name outside the registered set, the dispatcher
returns status "error" with the message enumerating every registered name
(joined in registration order), and performs no service invocation. -/
theorem c6_unknown_function : ∀ (nw : Nwis) (fname : String) (p : Params),
    fname ∉ functionNames →
    call_function nw fname p =
      (errorResponse ("Function '" ++ fname ++ "' not found. Available functions: " ++
         String.intercalate ", " functionNames), []) := by
  intro nw fname p h
  simp only [functionNames, List.mem_cons, List.not_mem_nil, or_false, not_or] at h
  obtain ⟨h1, h2, h3, h4, h5, h6, h7, h8, h9, h10, h11, h12, h13⟩ := h
  simp [call_function, h1, h2, h3, h4, h5, h6, h7, h8, h9, h10, h11, h12, h13]

/-- Witness for C6 at a concrete unregistered name. -/
theorem c6_unknown_function_witness :
    "bogus" ∉ functionNames ∧
    call_function trivialNwis "bogus" noneParams =
      (errorResponse ("Function '" ++ "bogus" ++ "' not found. Available functions: " ++
         String.intercalate ", " functionNames), []) :=
  ⟨by decide, c6_unknown_function trivialNwis "bogus" noneParams (by decide)⟩

/-- C7: each operation with required parameters rejects a missing (absent)
required parameter with a status "error" envelope naming the requirement,
without invoking the external service (empty invocation trace). -/
theorem c7_required_parameter_validation : ∀ (nw : Nwis) (p : Params),
    (p "site_code" = Val.vnone →
       get_site_data nw p = (errorResponse "Site code is required", []) ∧
       get_daily_values nw p = (errorResponse "site_code is required", [])) ∧
    (p "site_code" = Val.vnone ∨ p "parameter_code" = Val.vnone →
       get_instantaneous_values nw p =
         (errorResponse "site_code and parameter_code are both required", [])) ∧
    (p "sites" = Val.vnone →
       get_discharge_measurements nw p = (errorResponse "Sites parameter is required", []) ∧
       get_discharge_peaks nw p = (errorResponse "Sites parameter is required", []) ∧
       get_gwlevels nw p = (errorResponse "Sites parameter is required", [])) ∧
    (p "site" = Val.vnone →
       get_ratings nw p = (errorResponse "Site parameter is required", [])) ∧
    (p "parameterCd" = Val.vnone →
       get_pmcodes nw p = (errorResponse "Parameter code is required", [])) ∧
    (p "years" = Val.vnone → p "state" = Val.vnone → p "counties" = Val.vnone →
       p "categories" = Val.vnone →
       get_water_use nw p =
         (errorResponse "At least one of the parameters is required", [])) := by
  intro nw p
  refine ⟨?_, ?_, ?_, ?_, ?_, ?_⟩
  · intro h
    exact ⟨by simp [get_site_data, h, Val.truthy],
           by simp [get_daily_values, h, Val.truthy]⟩
  · rintro (h | h)
    · simp [get_instantaneous_values, h, Val.truthy]
    · simp [get_instantaneous_values, h, Val.truthy]
  · intro h
    exact ⟨by simp [get_discharge_measurements, h, Val.truthy],
           by simp [get_discharge_peaks, h, Val.truthy],
           by simp [get_gwlevels, h, Val.truthy]⟩
  · intro h; simp [get_ratings, h, Val.truthy]
  · intro h; simp [get_pmcodes, h, Val.truthy]
  · intro h1 h2 h3 h4; simp [get_water_use, h1, h2, h3, h4, Val.truthy]

/-- Witness for C7 on the everywhere-absent parameter mapping. -/
theorem c7_required_parameter_validation_witness :
    get_site_data trivialNwis noneParams = (errorResponse "Site code is required", []) ∧
    get_daily_values trivialNwis noneParams = (errorResponse "site_code is required", []) ∧
    get_instantaneous_values trivialNwis noneParams =
      (errorResponse "site_code and parameter_code are both required", []) ∧
    get_discharge_measurements trivialNwis noneParams =
      (errorResponse "Sites parameter is required", []) ∧
    get_discharge_peaks trivialNwis noneParams =
      (errorResponse "Sites parameter is required", []) ∧
    get_gwlevels trivialNwis noneParams =
      (errorResponse "Sites parameter is required", []) ∧
    get_ratings trivialNwis noneParams = (errorResponse "Site parameter is required", []) ∧
    get_pmcodes trivialNwis noneParams = (errorResponse "Parameter code is required", []) ∧
    get_water_use trivialNwis noneParams =
      (errorResponse "At least one of the parameters is required", []) := by
  have h := c7_required_parameter_validation trivialNwis noneParams
  exact ⟨(h.1 rfl).1, (h.1 rfl).2, h.2.1 (Or.inl rfl), (h.2.2.1 rfl).1,
    (h.2.2.1 rfl).2.1, (h.2.2.1 rfl).2.2, h.2.2.2.1 rfl, h.2.2.2.2.1 rfl,
    h.2.2.2.2.2 rfl rfl rfl rfl⟩

/-- Splitting the empty string still produces one (empty) element. -/
theorem pySplit_empty_string : pySplit "" ',' = [""] := rfl

/-- A mapping with a comma-separated `years` value and a `state` value. -/
def waterUseParams : Params := fun k =>
  if k = "years" then Val.vstr "2015,2020"
  else if k = "state" then Val.vstr "PA" else Val.vnone

/-- A mapping with only a comma-separated `sites` value. -/
def statsRawParams : Params := fun k => if k = "sites" then Val.vstr "A,B" else Val.vnone

/-- A mapping with `sites = "A,B"` and the string `"1"` for every other key. -/
def splitParams : Params := fun k => if k = "sites" then Val.vstr "A,B" else Val.vstr "1"

/-- A mapping with `sites = ""` and every other key absent. -/
def emptySitesParams : Params := fun k => if k = "sites" then Val.vstr "" else Val.vnone

/-- C4 counterexample: `get_water_use` and `get_stats` split the
comma-separated value only into an unused local variable and invoke the
external service with the raw parameter mapping, whose value is still the
raw comma-separated string, not the split sequence. -/
theorem c4_counterexample :
    (get_water_use trivialNwis waterUseParams).2 = [SvcCall.waterUse waterUseParams] ∧
    waterUseParams "years" = Val.vstr "2015,2020" ∧
    Val.vstr "2015,2020" ≠ Val.vlist ["2015", "2020"] ∧
    (get_stats trivialNwis statsRawParams).2 = [SvcCall.stats statsRawParams] ∧
    statsRawParams "sites" = Val.vstr "A,B" ∧
    Val.vstr "A,B" ≠ Val.vlist ["A", "B"] :=
  ⟨rfl, rfl, by decide, rfl, rfl, by decide⟩

/-- C4 amended: discharge measurements, discharge peaks and groundwater
levels invoke the external service with the comma-split ordered sequence of
the `sites` string; statistics and water-use split only a local copy used
for validation and forward the raw parameter mapping (hence the raw
comma-separated string) to the external call. -/
theorem c4_amended_split_policy : ∀ (nw : Nwis) (p : Params) (s : String),
    p "sites" = Val.vstr s →
    (get_discharge_measurements nw p).2 =
      [SvcCall.dischargeMeasurements (Val.vlist (pySplit s ',')) (p "start") (p "end")] ∧
    (get_discharge_peaks nw p).2 =
      [SvcCall.dischargePeaks (Val.vlist (pySplit s ',')) (p "start") (p "end")] ∧
    (get_gwlevels nw p).2 =
      [SvcCall.gwlevels (Val.vlist (pySplit s ',')) (p "start") (p "end")] ∧
    (get_stats nw p).2 = [SvcCall.stats p] ∧
    ((p "state").truthy = true → (get_water_use nw p).2 = [SvcCall.waterUse p]) ∧
    pySplit "A,B" ',' = ["A", "B"] := by
  intro nw p s hs
  refine ⟨?_, ?_, ?_, ?_, ?_, by decide⟩
  · cases hc : nw.dischargeMeasurements (Val.vlist (pySplit s ',')) (p "start") (p "end") <;>
      simp [get_discharge_measurements, hs, hc, pySplit_truthy]
  · cases hc : nw.dischargePeaks (Val.vlist (pySplit s ',')) (p "start") (p "end") <;>
      simp [get_discharge_peaks, hs, hc, pySplit_truthy]
  · cases hc : nw.gwlevels (Val.vlist (pySplit s ',')) (p "start") (p "end") <;>
      simp [get_gwlevels, hs, hc, pySplit_truthy]
  · cases hc : nw.stats p <;> simp [get_stats, hc]
  · intro hst
    cases hc : nw.waterUse p <;> simp [get_water_use, hst, hc]

/-- Witness for the amended C4 at `sites = "A,B"`. -/
theorem c4_amended_split_policy_witness :
    (get_discharge_measurements trivialNwis splitParams).2 =
      [SvcCall.dischargeMeasurements (Val.vlist (pySplit "A,B" ','))
        (splitParams "start") (splitParams "end")] ∧
    (get_discharge_peaks trivialNwis splitParams).2 =
      [SvcCall.dischargePeaks (Val.vlist (pySplit "A,B" ','))
        (splitParams "start") (splitParams "end")] ∧
    (get_gwlevels trivialNwis splitParams).2 =
      [SvcCall.gwlevels (Val.vlist (pySplit "A,B" ','))
        (splitParams "start") (splitParams "end")] ∧
    (get_stats trivialNwis splitParams).2 = [SvcCall.stats splitParams] ∧
    (get_water_use trivialNwis splitParams).2 = [SvcCall.waterUse splitParams] ∧
    pySplit "A,B" ',' = ["A", "B"] := by
  have h := c4_amended_split_policy trivialNwis splitParams "A,B" rfl
  exact ⟨h.1, h.2.1, h.2.2.1, h.2.2.2.1, h.2.2.2.2.1 (by decide), h.2.2.2.2.2⟩

/-- C9: the empty string is not rejected by the sites-requiring waterdata
operations — `"".split(",")` is the non-empty (truthy) list `[""]`, so the
external service is invoked with a one-element list holding the empty
string; the "Sites parameter is required" rejection (with no service call)
happens exactly when `sites` is absent/None or an empty non-string list. -/
theorem c9_empty_string_sites : ∀ (nw : Nwis) (p : Params),
    (p "sites" = Val.vstr "" →
       (get_discharge_measurements nw p).2 =
         [SvcCall.dischargeMeasurements (Val.vlist [""]) (p "start") (p "end")] ∧
       (get_discharge_peaks nw p).2 =
         [SvcCall.dischargePeaks (Val.vlist [""]) (p "start") (p "end")] ∧
       (get_gwlevels nw p).2 =
         [SvcCall.gwlevels (Val.vlist [""]) (p "start") (p "end")]) ∧
    ((get_discharge_measurements nw p).2 = [] ↔
       p "sites" = Val.vnone ∨ p "sites" = Val.vlist []) ∧
    ((get_discharge_peaks nw p).2 = [] ↔
       p "sites" = Val.vnone ∨ p "sites" = Val.vlist []) ∧
    ((get_gwlevels nw p).2 = [] ↔
       p "sites" = Val.vnone ∨ p "sites" = Val.vlist []) ∧
    (p "sites" = Val.vnone ∨ p "sites" = Val.vlist [] →
       (get_discharge_measurements nw p).1 = errorResponse "Sites parameter is required" ∧
       (get_discharge_peaks nw p).1 = errorResponse "Sites parameter is required" ∧
       (get_gwlevels nw p).1 = errorResponse "Sites parameter is required") := by
  intro nw p
  refine ⟨?_, ?_, ?_, ?_, ?_⟩
  · intro hs
    refine ⟨?_, ?_, ?_⟩
    · cases hc : nw.dischargeMeasurements (Val.vlist [""]) (p "start") (p "end") <;>
        simp [get_discharge_measurements, hs, hc, pySplit_empty_string, Val.truthy]
    · cases hc : nw.dischargePeaks (Val.vlist [""]) (p "start") (p "end") <;>
        simp [get_discharge_peaks, hs, hc, pySplit_empty_string, Val.truthy]
    · cases hc : nw.gwlevels (Val.vlist [""]) (p "start") (p "end") <;>
        simp [get_gwlevels, hs, hc, pySplit_empty_string, Val.truthy]
  · cases hsite : p "sites" with
    | vnone => simp [get_discharge_measurements, hsite, Val.truthy]
    | vstr s =>
        cases hc : nw.dischargeMeasurements (Val.vlist (pySplit s ',')) (p "start") (p "end") <;>
          simp [get_discharge_measurements, hsite, hc, pySplit_truthy]
    | vlist l =>
        cases l with
        | nil => simp [get_discharge_measurements, hsite, Val.truthy]
        | cons a as =>
            cases hc : nw.dischargeMeasurements (Val.vlist (a :: as)) (p "start") (p "end") <;>
              simp [get_discharge_measurements, hsite, hc, Val.truthy]
  · cases hsite : p "sites" with
    | vnone => simp [get_discharge_peaks, hsite, Val.truthy]
    | vstr s =>
        cases hc : nw.dischargePeaks (Val.vlist (pySplit s ',')) (p "start") (p "end") <;>
          simp [get_discharge_peaks, hsite, hc, pySplit_truthy]
    | vlist l =>
        cases l with
        | nil => simp [get_discharge_peaks, hsite, Val.truthy]
        | cons a as =>
            cases hc : nw.dischargePeaks (Val.vlist (a :: as)) (p "start") (p "end") <;>
              simp [get_discharge_peaks, hsite, hc, Val.truthy]
  · cases hsite : p "sites" with
    | vnone => simp [get_gwlevels, hsite, Val.truthy]
    | vstr s =>
        cases hc : nw.gwlevels (Val.vlist (pySplit s ',')) (p "start") (p "end") <;>
          simp [get_gwlevels, hsite, hc, pySplit_truthy]
    | vlist l =>
        cases l with
        | nil => simp [get_gwlevels, hsite, Val.truthy]
        | cons a as =>
            cases hc : nw.gwlevels (Val.vlist (a :: as)) (p "start") (p "end") <;>
              simp [get_gwlevels, hsite, hc, Val.truthy]
  · rintro (hs | hs) <;>
      exact ⟨by simp [get_discharge_measurements, hs, Val.truthy],
             by simp [get_discharge_peaks, hs, Val.truthy],
             by simp [get_gwlevels, hs, Val.truthy]⟩

/-- Witness for C9 at `sites = ""` (service invoked with `[""]`) and at the
absent mapping (rejected without a service call). -/
theorem c9_empty_string_sites_witness :
    (get_discharge_measurements trivialNwis emptySitesParams).2 =
      [SvcCall.dischargeMeasurements (Val.vlist [""])
        (emptySitesParams "start") (emptySitesParams "end")] ∧
    (get_discharge_peaks trivialNwis emptySitesParams).2 =
      [SvcCall.dischargePeaks (Val.vlist [""])
        (emptySitesParams "start") (emptySitesParams "end")] ∧
    (get_gwlevels trivialNwis emptySitesParams).2 =
      [SvcCall.gwlevels (Val.vlist [""])
        (emptySitesParams "start") (emptySitesParams "end")] ∧
    (get_discharge_measurements trivialNwis noneParams).1 =
      errorResponse "Sites parameter is required" := by
  have h := c9_empty_string_sites trivialNwis emptySitesParams
  have h' := c9_empty_string_sites trivialNwis noneParams
  exact ⟨(h.1 rfl).1, (h.1 rfl).2.1, (h.1 rfl).2.2,
    (h'.2.2.2.2 (Or.inl rfl)).1⟩

theorem filterMap_length_eq_filter_length {α β : Type} (f : α → Option β) (l : List α) :
    (l.filterMap f).length = (l.filter (fun a => (f a).isSome)).length := by
  induction l with
  | nil => rfl
  | cons a l ih =>
      cases h : f a <;> simp [List.filterMap_cons, List.filter_cons, h, ih]

/-- C8: the driver dispatches exactly the delimited blocks whose content
parses (one dispatch each, in order); a malformed block contributes no
dispatch and no envelope, and in the one-good-one-bad reply exactly one
dispatch occurs. -/
theorem c8_driver_function_call_extraction :
    ∀ (decode : String → Option FnCall) (ms : List String) (nw : Nwis),
    (process_function_calls nw (extract_function_calls decode ms)).length =
      (ms.filter (fun m => (decode (pyStrip m)).isSome)).length ∧
    (∀ m ms', decode (pyStrip m) = none →
       extract_function_calls decode (m :: ms') = extract_function_calls decode ms') ∧
    (∀ m ms' c, decode (pyStrip m) = some c →
       extract_function_calls decode (m :: ms') = c :: extract_function_calls decode ms') ∧
    (∀ good bad c, decode (pyStrip good) = some c → decode (pyStrip bad) = none →
       process_function_calls nw (extract_function_calls decode [good, bad]) =
         [(c.name, (call_function nw c.name c.parameters).1)]) := by
  intro decode ms nw
  refine ⟨?_, ?_, ?_, ?_⟩
  · rw [process_function_calls, List.length_map, extract_function_calls]
    exact filterMap_length_eq_filter_length _ _
  · intro m ms' h
    simp [extract_function_calls, List.filterMap_cons, h]
  · intro m ms' c h
    simp [extract_function_calls, List.filterMap_cons, h]
  · intro good bad c hg hb
    simp [process_function_calls, extract_function_calls, List.filterMap_cons, hg, hb]

/-- A concrete decoded call and a decoder recognizing exactly one block,
for the C8 witness. -/
def demoCall : FnCall := ⟨"what_sites", noneParams⟩

/-- A decoder (stand-in for `json.loads`) that parses exactly the block
`"ok"` and fails on everything else. -/
def demoDecode : String → Option FnCall :=
  fun s => if s = "ok" then some demoCall else none

/-- Witness for C8 on a reply with one well-formed and one malformed block:
exactly one dispatch, and the malformed block contributes nothing. -/
theorem c8_driver_function_call_extraction_witness :
    (process_function_calls trivialNwis (extract_function_calls demoDecode ["ok", "oops"])).length =
      (["ok", "oops"].filter (fun m => (demoDecode (pyStrip m)).isSome)).length ∧
    extract_function_calls demoDecode ("oops" :: ["ok"]) =
      extract_function_calls demoDecode ["ok"] ∧
    extract_function_calls demoDecode ("ok" :: []) =
      demoCall :: extract_function_calls demoDecode [] ∧
    process_function_calls trivialNwis (extract_function_calls demoDecode ["ok", "oops"]) =
      [(demoCall.name, (call_function trivialNwis demoCall.name demoCall.parameters).1)] := by
  have hgood : demoDecode (pyStrip "ok") = some demoCall := by
    show (if (pyStrip "ok") = "ok" then some demoCall else none) = some demoCall
    rw [if_pos (by decide)]
  have hbad : demoDecode (pyStrip "oops") = none := by
    show (if (pyStrip "oops") = "ok" then some demoCall else none) = none
    rw [if_neg (by decide)]
  have h := c8_driver_function_call_extraction demoDecode ["ok", "oops"] trivialNwis
  exact ⟨h.1, h.2.1 "oops" ["ok"] hbad, h.2.2.1 "ok" [] demoCall hgood,
    h.2.2.2 "ok" "oops" demoCall hgood hbad⟩

end DataRetrieval
